import Mathlib

/-!
Verification of the request-interception client excerpt (object factory plus
interception behaviour pinned by the test suite).

The excerpt contains `playwright/object_factory.py` (embedded directly below)
and `tests/test_interception.py`.  The remaining client modules (`page.py`,
`network.py`, `connection.py`) are not part of the excerpt; where a claim
depends on them they are modelled from the specification's words, with the
observable behaviour pinned by the tests in the excerpt.
-/

/-- Connection scope handle (opaque for the factory: it is only threaded
through to the constructed proxy). -/
structure ConnectionScope where
  sid : Nat
deriving DecidableEq

/-- The constructor payload (opaque for the factory: it is only threaded
through to the constructed proxy). -/
structure InitPayload where
  raw : String
deriving DecidableEq

/-- Modelled from the spec: `connection.py` is not in the excerpt; the
construction contract for every domain object (spec section 6) is
`new(scope, guid, initializer)` — exactly this triple, so the state a
`ChannelOwner` is built from is the triple itself. -/
structure ChannelOwner where
  scope : ConnectionScope
  guid : String
  init : InitPayload
deriving DecidableEq

/-- The closed set of proxy classes `create_remote_object` can instantiate
(`playwright/object_factory.py`), plus the `DummyObject` placeholder; each is
constructed from the `(scope, guid, initializer)` triple. -/
inductive RemoteObject where
  | BindingCall (st : ChannelOwner)
  | Browser (st : ChannelOwner)
  | BrowserServer (st : ChannelOwner)
  | BrowserType (st : ChannelOwner)
  | BrowserContext (st : ChannelOwner)
  | ConsoleMessage (st : ChannelOwner)
  | Dialog (st : ChannelOwner)
  | Download (st : ChannelOwner)
  | ElementHandle (st : ChannelOwner)
  | Frame (st : ChannelOwner)
  | JSHandle (st : ChannelOwner)
  | Page (st : ChannelOwner)
  | Playwright (st : ChannelOwner)
  | Request (st : ChannelOwner)
  | Response (st : ChannelOwner)
  | Route (st : ChannelOwner)
  | Worker (st : ChannelOwner)
  | Selectors (st : ChannelOwner)
  | DummyObject (st : ChannelOwner)
deriving DecidableEq

/-- Embedding of `create_remote_object` (`playwright/object_factory.py`,
lines 40-79): the if/elif chain over the type tag, falling through to
`DummyObject(scope, guid, initializer)`. -/
def create_remote_object (scope : ConnectionScope) (type : String)
    (guid : String) (init : InitPayload) : RemoteObject :=
  if type = "BindingCall" then .BindingCall ⟨scope, guid, init⟩
  else if type = "Browser" then .Browser ⟨scope, guid, init⟩
  else if type = "BrowserServer" then .BrowserServer ⟨scope, guid, init⟩
  else if type = "BrowserType" then .BrowserType ⟨scope, guid, init⟩
  else if type = "BrowserContext" then .BrowserContext ⟨scope, guid, init⟩
  else if type = "ConsoleMessage" then .ConsoleMessage ⟨scope, guid, init⟩
  else if type = "Dialog" then .Dialog ⟨scope, guid, init⟩
  else if type = "Download" then .Download ⟨scope, guid, init⟩
  else if type = "ElementHandle" then .ElementHandle ⟨scope, guid, init⟩
  else if type = "Frame" then .Frame ⟨scope, guid, init⟩
  else if type = "JSHandle" then .JSHandle ⟨scope, guid, init⟩
  else if type = "Page" then .Page ⟨scope, guid, init⟩
  else if type = "Playwright" then .Playwright ⟨scope, guid, init⟩
  else if type = "Request" then .Request ⟨scope, guid, init⟩
  else if type = "Response" then .Response ⟨scope, guid, init⟩
  else if type = "Route" then .Route ⟨scope, guid, init⟩
  else if type = "Worker" then .Worker ⟨scope, guid, init⟩
  else if type = "Selectors" then .Selectors ⟨scope, guid, init⟩
  else .DummyObject ⟨scope, guid, init⟩

/-- The 18 type tags recognized by the if/elif chain of
`create_remote_object`. -/
def recognizedTags : List String :=
  ["BindingCall", "Browser", "BrowserServer", "BrowserType", "BrowserContext",
   "ConsoleMessage", "Dialog", "Download", "ElementHandle", "Frame",
   "JSHandle", "Page", "Playwright", "Request", "Response", "Route",
   "Worker", "Selectors"]

theorem create_remote_object_unrecognized (s : ConnectionScope) (g : String)
    (i : InitPayload) :
    ∀ t, t ∉ recognizedTags →
      create_remote_object s t g i = RemoteObject.DummyObject ⟨s, g, i⟩ := by
  intro t ht
  simp only [recognizedTags, List.mem_cons, List.not_mem_nil, or_false,
    not_or] at ht
  obtain ⟨h1, h2, h3, h4, h5, h6, h7, h8, h9, h10, h11, h12, h13, h14, h15,
    h16, h17, h18⟩ := ht
  simp [create_remote_object, h1, h2, h3, h4, h5, h6, h7, h8, h9, h10, h11,
    h12, h13, h14, h15, h16, h17, h18]

/-- C5: for every input, `create_remote_object` returns an object (it is a
total function, no error path): the unrecognized tags give the `DummyObject`
placeholder, and each of the 18 recognized tags gives the correspondingly
named proxy constructed from `(scope, guid, initializer)`. -/
theorem create_remote_object_total_mapping (s : ConnectionScope) (g : String)
    (i : InitPayload) :
    (∀ t, t ∉ recognizedTags →
      create_remote_object s t g i = RemoteObject.DummyObject ⟨s, g, i⟩)
    ∧ create_remote_object s "BindingCall" g i = .BindingCall ⟨s, g, i⟩
    ∧ create_remote_object s "Browser" g i = .Browser ⟨s, g, i⟩
    ∧ create_remote_object s "BrowserServer" g i = .BrowserServer ⟨s, g, i⟩
    ∧ create_remote_object s "BrowserType" g i = .BrowserType ⟨s, g, i⟩
    ∧ create_remote_object s "BrowserContext" g i = .BrowserContext ⟨s, g, i⟩
    ∧ create_remote_object s "ConsoleMessage" g i = .ConsoleMessage ⟨s, g, i⟩
    ∧ create_remote_object s "Dialog" g i = .Dialog ⟨s, g, i⟩
    ∧ create_remote_object s "Download" g i = .Download ⟨s, g, i⟩
    ∧ create_remote_object s "ElementHandle" g i = .ElementHandle ⟨s, g, i⟩
    ∧ create_remote_object s "Frame" g i = .Frame ⟨s, g, i⟩
    ∧ create_remote_object s "JSHandle" g i = .JSHandle ⟨s, g, i⟩
    ∧ create_remote_object s "Page" g i = .Page ⟨s, g, i⟩
    ∧ create_remote_object s "Playwright" g i = .Playwright ⟨s, g, i⟩
    ∧ create_remote_object s "Request" g i = .Request ⟨s, g, i⟩
    ∧ create_remote_object s "Response" g i = .Response ⟨s, g, i⟩
    ∧ create_remote_object s "Route" g i = .Route ⟨s, g, i⟩
    ∧ create_remote_object s "Worker" g i = .Worker ⟨s, g, i⟩
    ∧ create_remote_object s "Selectors" g i = .Selectors ⟨s, g, i⟩ :=
  ⟨create_remote_object_unrecognized s g i, rfl, rfl, rfl, rfl, rfl, rfl,
    rfl, rfl, rfl, rfl, rfl, rfl, rfl, rfl, rfl, rfl, rfl, rfl⟩

/-- C5 witness: the factory evaluated at one concrete unrecognized tag. -/
theorem create_remote_object_total_mapping_witness :
    create_remote_object ⟨0⟩ "Widget" "guid-1" ⟨""⟩ =
      RemoteObject.DummyObject ⟨⟨0⟩, "guid-1", ⟨""⟩⟩ :=
  (create_remote_object_total_mapping ⟨0⟩ "guid-1" ⟨""⟩).1 "Widget" (by decide)

/-- C9: tag matching is exact, case-sensitive string equality with no
normalization: strings differing from the recognized tags in case or content
fall through to the `DummyObject` branch, and so does every string outside
the recognized enumeration. -/
theorem create_remote_object_case_sensitive (s : ConnectionScope) (g : String)
    (i : InitPayload) :
    create_remote_object s "page" g i = RemoteObject.DummyObject ⟨s, g, i⟩
    ∧ create_remote_object s "BROWSER" g i = RemoteObject.DummyObject ⟨s, g, i⟩
    ∧ create_remote_object s "Request " g i = RemoteObject.DummyObject ⟨s, g, i⟩
    ∧ create_remote_object s "" g i = RemoteObject.DummyObject ⟨s, g, i⟩
    ∧ ∀ t, t ∉ recognizedTags →
        create_remote_object s t g i = RemoteObject.DummyObject ⟨s, g, i⟩ :=
  ⟨rfl, rfl, rfl, rfl, create_remote_object_unrecognized s g i⟩

/-- C9 witness: the general clause evaluated at the concrete
case-variant tag "frame". -/
theorem create_remote_object_case_sensitive_witness :
    create_remote_object ⟨1⟩ "frame" "guid-2" ⟨""⟩ =
      RemoteObject.DummyObject ⟨⟨1⟩, "guid-2", ⟨""⟩⟩ :=
  (create_remote_object_case_sensitive ⟨1⟩ "guid-2" ⟨""⟩).2.2.2.2 "frame"
    (by decide)

/-- C6 counterexample: the unrecognized type string is NOT retained on (or
recoverable from) the placeholder.  `create_remote_object` drops the `type`
argument on the default branch — `DummyObject(scope, guid, initializer)` —
so the placeholders built for two different unrecognized tags are identical,
and no recovery function can return both tags. -/
theorem dummy_type_tag_not_recoverable :
    ¬ ∃ recover : RemoteObject → String,
      recover (create_remote_object ⟨0⟩ "Alpha" "g" ⟨""⟩) = "Alpha" ∧
      recover (create_remote_object ⟨0⟩ "Beta" "g" ⟨""⟩) = "Beta" := by
  rintro ⟨f, h1, h2⟩
  have hsame : create_remote_object ⟨0⟩ "Alpha" "g" ⟨""⟩ =
      create_remote_object ⟨0⟩ "Beta" "g" ⟨""⟩ := rfl
  rw [hsame] at h1
  rw [h1] at h2
  exact absurd h2 (by decide)

/-- C6 amended: for every unrecognized type string the factory returns a
`DummyObject` placeholder built from `(scope, guid, initializer)` only; the
type string is discarded, so placeholders for any two unrecognized tags with
the same triple coincide. -/
theorem dummy_object_drops_type_tag (s : ConnectionScope) (g : String)
    (i : InitPayload) (t u : String) (ht : t ∉ recognizedTags)
    (hu : u ∉ recognizedTags) :
    create_remote_object s t g i = RemoteObject.DummyObject ⟨s, g, i⟩
    ∧ create_remote_object s t g i = create_remote_object s u g i := by
  have h1 := create_remote_object_unrecognized s g i t ht
  have h2 := create_remote_object_unrecognized s g i u hu
  exact ⟨h1, h1.trans h2.symm⟩

/-- C6 amended witness: two concrete unrecognized tags. -/
theorem dummy_object_drops_type_tag_witness :
    create_remote_object ⟨2⟩ "Gamma" "guid-3" ⟨"x"⟩ =
        RemoteObject.DummyObject ⟨⟨2⟩, "guid-3", ⟨"x"⟩⟩
    ∧ create_remote_object ⟨2⟩ "Gamma" "guid-3" ⟨"x"⟩ =
        create_remote_object ⟨2⟩ "Delta" "guid-3" ⟨"x"⟩ :=
  dummy_object_drops_type_tag ⟨2⟩ "guid-3" ⟨"x"⟩ "Gamma" "Delta"
    (by decide) (by decide)

/-- Modelled from the spec: URL glob matching (`helper.py` is not in the
excerpt; spec section 3 says handler registrations carry a glob pattern).
A single star matches any run of characters other than a slash, a double
star matches any run of characters; other characters match literally.
Only the star forms occur in the excerpt's patterns. -/
def globMatchFuel : Nat → List Char → List Char → Bool
  | 0, _, _ => false
  | _ + 1, [], [] => true
  | _ + 1, [], _ :: _ => false
  | fuel + 1, '*' :: '*' :: ps, [] => globMatchFuel fuel ps []
  | fuel + 1, '*' :: '*' :: ps, c :: s => globMatchFuel fuel ps (c :: s) ||
      globMatchFuel fuel ('*' :: '*' :: ps) s
  | fuel + 1, '*' :: ps, [] => globMatchFuel fuel ps []
  | fuel + 1, '*' :: ps, c :: s => globMatchFuel fuel ps (c :: s) ||
      (!(c = '/') && globMatchFuel fuel ('*' :: ps) s)
  | _ + 1, _ :: _, [] => false
  | fuel + 1, p :: ps, c :: s => p = c && globMatchFuel fuel ps s

/-- Glob matching on strings.  Every recursive step of `globMatchFuel`
strictly shrinks the combined length of pattern and candidate, so this
fuel never runs out. -/
def globMatch (pat url : String) : Bool :=
  globMatchFuel (pat.length + url.length + 1) pat.toList url.toList

/-- A registered (pattern, handler) pair; handlers are identified by a
numeric identity, as handler callables only matter up to identity for
registration and selection. -/
structure RouteHandlerEntry where
  pattern : String
  handler : Nat
deriving DecidableEq

/-- Modelled from the spec: `Page.route` (`page.py` is not in the excerpt)
appends a (pattern, handler) registration to the page's ordered sequence
(spec section 3, Handler Registration). -/
def pageRoute (rs : List RouteHandlerEntry) (pat : String) (h : Nat) :
    List RouteHandlerEntry :=
  rs ++ [⟨pat, h⟩]

/-- Modelled from the spec: `Page.unroute` (`page.py` is not in the
excerpt); with a handler it removes only that (pattern, handler) pair, with
no handler it removes every registration for the pattern (spec section 3),
keeping all other registrations in order. -/
def pageUnroute (rs : List RouteHandlerEntry) (pat : String)
    (h : Option Nat) : List RouteHandlerEntry :=
  match h with
  | some hd => rs.filter (fun e => !(e.pattern = pat && e.handler = hd))
  | none => rs.filter (fun e => !(e.pattern = pat))

/-- Modelled from the spec's registration structure (section 3) with the
selection order pinned by `test_page_route_should_unroute`
(`tests/test_interception.py` lines 51-94, asserting `intercepted == [1]`):
the dispatch scans the registrations in registration order and the first
entry whose pattern matches the URL handles the request. -/
def selectHandler (rs : List RouteHandlerEntry) (url : String) : Option Nat :=
  (rs.find? (fun e => globMatch e.pattern url)).map (fun e => e.handler)

/-- The handlers actually invoked for one interceptable request: the
selected handler alone, or none when no pattern matches. -/
def invokedHandlers (rs : List RouteHandlerEntry) (url : String) : List Nat :=
  match selectHandler rs url with
  | some h => [h]
  | none => []

/-- The selection policy as the claim words it: the most-recently-registered
matching handler. -/
def lastMatchingHandler (rs : List RouteHandlerEntry) (url : String) :
    Option Nat :=
  (rs.reverse.find? (fun e => globMatch e.pattern url)).map
    (fun e => e.handler)

/-- The registration sequence of `test_page_route_should_unroute`: handlers
1, 2, 3 on the pattern for empty.html, then catch-all handler 4. -/
def unrouteTestRoutes : List RouteHandlerEntry :=
  pageRoute (pageRoute (pageRoute (pageRoute [] "**/empty.html" 1)
    "**/empty.html" 2) "**/empty.html" 3) "**/*" 4

/-- C1 counterexample: with handlers 1, 2, 3 registered on one pattern and
then a catch-all 4, the handler invoked for a matching URL is handler 1 —
the first-registered matching handler — while the most-recently-registered
matching handler is 4, so the last-registered-wins policy the claim states
does not hold (this matches `intercepted == [1]` in
`test_page_route_should_unroute`). -/
theorem last_registered_wins_refuted :
    invokedHandlers unrouteTestRoutes "http://localhost:8907/empty.html"
        = [1]
    ∧ lastMatchingHandler unrouteTestRoutes "http://localhost:8907/empty.html"
        = some 4
    ∧ invokedHandlers unrouteTestRoutes "http://localhost:8907/empty.html"
        ≠ [4] := by
  refine ⟨by rfl, by rfl, by decide⟩

theorem selectHandler_eq_filter_head (rs : List RouteHandlerEntry)
    (url : String) :
    selectHandler rs url =
      ((rs.filter fun e => globMatch e.pattern url).head?).map
        (fun e => e.handler) := by
  unfold selectHandler
  induction rs with
  | nil => rfl
  | cons e rs ih =>
    by_cases h : globMatch e.pattern url
    · simp [List.find?_cons, List.filter_cons, h]
    · simp only [List.find?_cons, List.filter_cons, h, Bool.false_eq_true,
        if_false]
      exact ih

theorem invokedHandlers_eq_toList (rs : List RouteHandlerEntry)
    (url : String) :
    invokedHandlers rs url = (selectHandler rs url).toList := by
  unfold invokedHandlers
  cases selectHandler rs url <;> rfl

/-- C1 amended: for every request matched by at least one registration,
exactly one handler is invoked, and it is the EARLIEST-registered matching
handler (first-registered-wins): the invoked-handler list equals the head of
the matching registrations in registration order, so it never has more than
one element and no other matching handler is invoked. -/
theorem first_registered_matching_handler_wins (rs : List RouteHandlerEntry)
    (url : String) :
    invokedHandlers rs url =
      (((rs.filter fun e => globMatch e.pattern url).head?).map
        (fun e => e.handler)).toList
    ∧ (invokedHandlers rs url).length ≤ 1 := by
  have h := invokedHandlers_eq_toList rs url
  refine ⟨by rw [h, selectHandler_eq_filter_head], ?_⟩
  rw [h]
  cases selectHandler rs url <;> simp

theorem count_filter_entry (p : RouteHandlerEntry → Bool)
    (l : List RouteHandlerEntry) (e : RouteHandlerEntry) :
    (l.filter p).count e = if p e then l.count e else 0 := by
  by_cases h : p e
  · simp [h, List.count_filter]
  · simp only [h, Bool.false_eq_true, if_false]
    refine List.count_eq_zero.mpr (fun hmem => ?_)
    exact h (List.mem_filter.mp hmem).2

/-- C8: unregistering with both a pattern and a handler removes exactly the
registrations equal to that (pattern, handler) pair and keeps every other
registration with its multiplicity (in order: the result is a sublist);
unregistering with a pattern alone removes exactly the registrations for
that pattern and keeps all others.  The concrete conjuncts replay
`test_page_route_should_unroute`: after unregistering handler 1 the invoked
handler is 2, and after unregistering the whole pattern it is 4. -/
theorem unroute_removes_exactly (rs : List RouteHandlerEntry) (pat : String)
    (hd : Nat) (e : RouteHandlerEntry) :
    ((pageUnroute rs pat (some hd)).count e =
      (if e.pattern = pat ∧ e.handler = hd then 0 else rs.count e))
    ∧ ((pageUnroute rs pat none).count e =
      (if e.pattern = pat then 0 else rs.count e))
    ∧ (pageUnroute rs pat (some hd)).Sublist rs
    ∧ (pageUnroute rs pat none).Sublist rs
    ∧ invokedHandlers
        (pageUnroute unrouteTestRoutes "**/empty.html" (some 1))
        "http://localhost:8907/empty.html" = [2]
    ∧ invokedHandlers
        (pageUnroute (pageUnroute unrouteTestRoutes "**/empty.html" (some 1))
          "**/empty.html" none)
        "http://localhost:8907/empty.html" = [4] := by
  refine ⟨?_, ?_, List.filter_sublist rs, List.filter_sublist rs, rfl, rfl⟩
  · rw [pageUnroute, count_filter_entry]
    by_cases hc : e.pattern = pat ∧ e.handler = hd
    · simp [hc.1, hc.2]
    · have : ¬(e.pattern = pat && e.handler = hd) = true := by
        simpa [Bool.and_eq_true, decide_eq_true_eq] using hc
      simp [hc, this]
  · rw [pageUnroute, count_filter_entry]
    by_cases hc : e.pattern = pat
    · simp [hc]
    · simp [hc]

/-- Resolution states of a Route (spec section 4.4): Pending, then exactly
one of the terminal states. -/
inductive RouteState where
  | Pending
  | Continued
  | Aborted
  | Fulfilled
deriving DecidableEq

/-- The observable attributes of a request relevant to interception (spec
section 3): url, method, headers and optional post data. -/
structure RequestData where
  url : String
  method : String
  headers : List (String × String)
  postData : Option String
deriving DecidableEq

/-- The optional override fields a continue call may supply (spec section
4.4). -/
structure ContinueOverrides where
  url : Option String
  method : Option String
  headers : Option (List (String × String))
  postData : Option String
deriving DecidableEq

/-- A resolution instruction sent to the driver. -/
inductive Instruction where
  | instContinue (ov : ContinueOverrides)
  | instAbort (errorCode : String)
  | instFulfill (status : Nat) (headers : List (String × String))
      (body : String)
deriving DecidableEq

/-- The local user-facing error for a second resolution attempt. -/
inductive RouteError where
  | RouteAlreadyHandled
deriving DecidableEq

/-- A user resolution call on a Route. -/
inductive ResolutionCall where
  | callContinue (ov : ContinueOverrides)
  | callAbort (errorCode : String)
  | callFulfill (status : Nat) (headers : List (String × String))
      (body : String)
deriving DecidableEq

/-- Modelled from the spec: the Route state machine (`network.py` is not in
the excerpt).  The route tracks its resolution state and the instructions it
has sent to the driver. -/
structure RouteRec where
  state : RouteState
  sent : List Instruction
deriving DecidableEq

/-- A freshly announced Route: Pending, nothing sent. -/
def freshRoute : RouteRec := ⟨RouteState.Pending, []⟩

/-- The instruction a resolution call transmits. -/
def instructionOf : ResolutionCall → Instruction
  | .callContinue ov => .instContinue ov
  | .callAbort c => .instAbort c
  | .callFulfill st hs b => .instFulfill st hs b

/-- The terminal state a resolution call moves the Route to. -/
def stateOf : ResolutionCall → RouteState
  | .callContinue _ => .Continued
  | .callAbort _ => .Aborted
  | .callFulfill _ _ _ => .Fulfilled

/-- Modelled from the spec (section 4.4): each of continue/abort/fulfill
sends its instruction and moves the Route to its terminal state when the
Route is Pending, and fails with RouteAlreadyHandled — sending nothing —
otherwise. -/
def applyCall (r : RouteRec) (c : ResolutionCall) :
    Except RouteError RouteRec :=
  if r.state = RouteState.Pending then
    Except.ok ⟨stateOf c, r.sent ++ [instructionOf c]⟩
  else
    Except.error RouteError.RouteAlreadyHandled

/-- Run a sequence of resolution calls against a Route, collecting each
call's outcome; a failed call leaves the Route unchanged. -/
def runCalls (r : RouteRec) :
    List ResolutionCall → RouteRec × List (Except RouteError Unit)
  | [] => (r, [])
  | c :: cs =>
    match applyCall r c with
    | Except.ok r2 =>
        let p := runCalls r2 cs
        (p.1, Except.ok () :: p.2)
    | Except.error e =>
        let p := runCalls r cs
        (p.1, Except.error e :: p.2)

/-- Whether a call outcome is a success. -/
def isSuccess : Except RouteError Unit → Bool
  | Except.ok _ => true
  | Except.error _ => false

theorem stateOf_ne_pending (c : ResolutionCall) :
    stateOf c ≠ RouteState.Pending := by
  cases c <;> simp [stateOf]

theorem runCalls_not_pending (r : RouteRec)
    (h : r.state ≠ RouteState.Pending) (cs : List ResolutionCall) :
    runCalls r cs =
      (r, cs.map fun _ => Except.error RouteError.RouteAlreadyHandled) := by
  induction cs with
  | nil => rfl
  | cons c cs ih => simp [runCalls, applyCall, h, ih]

/-- C3: from a fresh (Pending) Route, for every nonempty sequence of
resolution calls the first call succeeds and every subsequent call fails
with RouteAlreadyHandled (never a silent no-op), exactly one call succeeds
in total, and exactly one instruction — the first call's — is ever sent to
the driver. -/
theorem route_single_resolution (c : ResolutionCall)
    (cs : List ResolutionCall) :
    (runCalls freshRoute (c :: cs)).2 =
      Except.ok () ::
        (cs.map fun _ => Except.error RouteError.RouteAlreadyHandled)
    ∧ ((runCalls freshRoute (c :: cs)).2.countP isSuccess) = 1
    ∧ (runCalls freshRoute (c :: cs)).1.sent = [instructionOf c]
    ∧ (runCalls freshRoute (c :: cs)).1.state = stateOf c := by
  have h1 : applyCall freshRoute c =
      Except.ok ⟨stateOf c, [instructionOf c]⟩ := by
    simp [applyCall, freshRoute]
  have h2 := runCalls_not_pending ⟨stateOf c, [instructionOf c]⟩
    (by simpa using stateOf_ne_pending c) cs
  refine ⟨?_, ?_, ?_, ?_⟩ <;>
    simp [runCalls, h1, h2, List.countP_cons, isSuccess, List.countP_map,
      Function.comp]

/-- Modelled from the spec (section 4.4): the request the driver proceeds
with after a continue call is the original request with the supplied
overrides merged over it; any field not overridden is unchanged. -/
def applyOverrides (req : RequestData) (ov : ContinueOverrides) :
    RequestData :=
  { url := ov.url.getD req.url
    method := ov.method.getD req.method
    headers := ov.headers.getD req.headers
    postData := match ov.postData with
      | some d => some d
      | none => req.postData }

/-- C7: for every Pending Route continued with a subset of the override
fields supplied, the request the driver proceeds with carries exactly the
supplied values for the overridden fields, and every field not overridden is
unchanged from the original request. -/
theorem continue_overrides_merge (req : RequestData) (ov : ContinueOverrides) :
    (∀ u, ov.url = some u → (applyOverrides req ov).url = u)
    ∧ (ov.url = none → (applyOverrides req ov).url = req.url)
    ∧ (∀ m, ov.method = some m → (applyOverrides req ov).method = m)
    ∧ (ov.method = none → (applyOverrides req ov).method = req.method)
    ∧ (∀ hs, ov.headers = some hs → (applyOverrides req ov).headers = hs)
    ∧ (ov.headers = none → (applyOverrides req ov).headers = req.headers)
    ∧ (∀ d, ov.postData = some d →
        (applyOverrides req ov).postData = some d)
    ∧ (ov.postData = none →
        (applyOverrides req ov).postData = req.postData) := by
  refine ⟨?_, ?_, ?_, ?_, ?_, ?_, ?_, ?_⟩ <;>
    first
      | (intro v hv; simp [applyOverrides, hv])
      | (intro hv; simp [applyOverrides, hv])

/-- The original request of `test_request_continue_should_amend_method`:
a GET fetch with no body. -/
def amendMethodReq : RequestData :=
  ⟨"http://localhost:8907/sleep.zzz", "GET", [("user-agent", "UA")], none⟩

/-- The override of `test_request_continue_should_amend_method`: only the
method is overridden, to POST. -/
def amendMethodOv : ContinueOverrides := ⟨none, some "POST", none, none⟩

/-- C7 witness: overriding only the method to POST changes the method the
server sees but leaves url, headers and post data as issued. -/
theorem continue_overrides_merge_witness :
    (applyOverrides amendMethodReq amendMethodOv).method = "POST"
    ∧ (applyOverrides amendMethodReq amendMethodOv).url = amendMethodReq.url
    ∧ (applyOverrides amendMethodReq amendMethodOv).headers =
        amendMethodReq.headers
    ∧ (applyOverrides amendMethodReq amendMethodOv).postData =
        amendMethodReq.postData := by
  have h := continue_overrides_merge amendMethodReq amendMethodOv
  exact ⟨h.2.2.1 "POST" rfl, h.2.1 rfl, h.2.2.2.2.2.1 rfl,
    h.2.2.2.2.2.2.2 rfl⟩

/-- A Request as the redirect-chain claims observe it: its url and the
redirectedFrom/redirectedTo linkage pointers (held as indices into the
chain, mirroring the guid-keyed weak references of spec section 9).  The
`idx` field is the request's position in its chain. -/
structure ModelRequest where
  idx : Nat
  url : String
  redirectedFrom : Option Nat
  redirectedTo : Option Nat
deriving DecidableEq

/-- Modelled from the spec (sections 3 and 4.4): each redirect hop spawns a
new Request linked via redirectedFrom/redirectedTo; for a chain with URLs
u0 .. uN the driver produces requests r0 .. rN where r0 is the original
(no redirectedFrom) and rN is the final request (no redirectedTo). -/
def buildRedirectChain (urls : List String) : List ModelRequest :=
  (List.range urls.length).map fun i =>
    ⟨i, urls.getD i "",
     if i = 0 then none else some (i - 1),
     if i + 1 = urls.length then none else some (i + 1)⟩

/-- Modelled from the spec's interception structure with the per-chain
behaviour pinned by `test_page_route_should_not_work_with_redirects`
(`tests/test_interception.py` lines 292-331, asserting
`len(intercepted) == 1` across four redirects) and by
`test_page_route_should_work_with_redirects_for_subresources` (lines
333-369): only the original request of a redirect chain is presented to
route handlers; the redirect hops are not. -/
def chainHandlerInvocations (rs : List RouteHandlerEntry)
    (chainUrls : List String) : List Nat :=
  match chainUrls with
  | [] => []
  | u :: _ => invokedHandlers rs u

/-- The URLs of the redirect chain exercised by
`test_page_route_should_not_work_with_redirects`: the original navigation
plus four redirect hops ending at empty.html. -/
def redirectTestUrls : List String :=
  ["http://localhost:8907/non-existing-page.html",
   "http://localhost:8907/non-existing-page-2.html",
   "http://localhost:8907/non-existing-page-3.html",
   "http://localhost:8907/non-existing-page-4.html",
   "http://localhost:8907/empty.html"]

/-- C2 counterexample: for the four-hop redirect chain of the test, with a
matching catch-all handler registered, the handler is invoked exactly once
— for the original request — not N+1 = 5 times as the claim states. -/
theorem one_invocation_per_chain_not_per_hop :
    redirectTestUrls.length = 5
    ∧ chainHandlerInvocations [⟨"**/*", 7⟩] redirectTestUrls = [7]
    ∧ (chainHandlerInvocations [⟨"**/*", 7⟩] redirectTestUrls).length = 1
    ∧ (chainHandlerInvocations [⟨"**/*", 7⟩] redirectTestUrls).length ≠ 5 :=
  ⟨rfl, rfl, rfl, by decide⟩

/-- C2 amended: for every redirect chain whose original request matches a
registered handler, the handler is invoked exactly once for the whole chain
(for the original request); redirect hops spawn new linked Request objects
but are not presented to handlers. -/
theorem handler_invoked_once_per_chain (rs : List RouteHandlerEntry)
    (u : String) (rest : List String) (h : selectHandler rs u ≠ none) :
    (chainHandlerInvocations rs (u :: rest)).length = 1 := by
  have he : chainHandlerInvocations rs (u :: rest) = invokedHandlers rs u :=
    rfl
  rw [he, invokedHandlers_eq_toList]
  cases hs : selectHandler rs u
  · exact absurd hs h
  · simp

/-- C2 amended witness: the test's four-hop chain under the catch-all
pattern. -/
theorem handler_invoked_once_per_chain_witness :
    (chainHandlerInvocations [⟨"**/*", 9⟩]
      ("http://localhost:8907/non-existing-page.html" ::
        ["http://localhost:8907/non-existing-page-2.html",
         "http://localhost:8907/non-existing-page-3.html",
         "http://localhost:8907/non-existing-page-4.html",
         "http://localhost:8907/empty.html"])).length = 1 :=
  handler_invoked_once_per_chain [⟨"**/*", 9⟩]
    "http://localhost:8907/non-existing-page.html"
    ["http://localhost:8907/non-existing-page-2.html",
     "http://localhost:8907/non-existing-page-3.html",
     "http://localhost:8907/non-existing-page-4.html",
     "http://localhost:8907/empty.html"] (by decide)

/-- Walk the redirectedFrom pointers through a chain, collecting the indices
visited; the fuel bounds the number of steps. -/
def walkBack (chain : List ModelRequest) : Option Nat → Nat → List Nat
  | none, _ => []
  | some _, 0 => []
  | some i, fuel + 1 =>
      i :: walkBack chain ((chain[i]?).bind (fun r => r.redirectedFrom)) fuel

theorem buildRedirectChain_get (urls : List String) (i : Nat)
    (hi : i < urls.length) :
    (buildRedirectChain urls)[i]? =
      some ⟨i, urls.getD i "", if i = 0 then none else some (i - 1),
            if i + 1 = urls.length then none else some (i + 1)⟩ := by
  unfold buildRedirectChain
  rw [List.getElem?_map, List.getElem?_range hi]
  rfl

theorem walkBack_buildRedirectChain (urls : List String) :
    ∀ i, i < urls.length →
      walkBack (buildRedirectChain urls) (some i) (i + 1) =
        (List.range (i + 1)).reverse := by
  intro i
  induction i with
  | zero =>
    intro hi
    rw [walkBack, buildRedirectChain_get urls 0 hi]
    rfl
  | succ i ih =>
    intro hi
    have hi2 : i < urls.length := Nat.lt_of_succ_lt hi
    rw [walkBack, buildRedirectChain_get urls (i + 1) hi]
    have hne : ¬(i + 1 = 0) := Nat.succ_ne_zero i
    simp only [hne, if_false, Option.some_bind, Nat.add_sub_cancel]
    rw [ih hi2, List.range_succ (i + 1), List.reverse_append]
    rfl

/-- C4: for every completed redirect chain (any nonempty URL list), the
redirectedFrom/redirectedTo pointers form a single acyclic doubly-linked
list: walking redirectedFrom from the final request visits exactly N+1
distinct requests (for N hops, i.e. N+1 chain URLs), terminates at the
original request — which has no redirectedFrom — the final request has no
redirectedTo, and redirectedTo is the inverse of redirectedFrom for every
adjacent pair. -/
theorem redirect_chain_doubly_linked (urls : List String) (h : urls ≠ []) :
    walkBack (buildRedirectChain urls) (some (urls.length - 1)) urls.length
        = (List.range urls.length).reverse
    ∧ (walkBack (buildRedirectChain urls) (some (urls.length - 1))
        urls.length).length = urls.length
    ∧ (walkBack (buildRedirectChain urls) (some (urls.length - 1))
        urls.length).Nodup
    ∧ (walkBack (buildRedirectChain urls) (some (urls.length - 1))
        urls.length).getLast? = some 0
    ∧ ((buildRedirectChain urls)[0]?).map (fun r => r.redirectedFrom)
        = some none
    ∧ ((buildRedirectChain urls)[urls.length - 1]?).map
        (fun r => r.redirectedTo) = some none
    ∧ (∀ i, i + 1 < urls.length →
        ((buildRedirectChain urls)[i + 1]?).map (fun r => r.redirectedFrom)
            = some (some i)
        ∧ ((buildRedirectChain urls)[i]?).map (fun r => r.redirectedTo)
            = some (some (i + 1))) := by
  obtain ⟨n, hn⟩ : ∃ n, urls.length = n + 1 :=
    ⟨urls.length - 1, (Nat.succ_pred_eq_of_pos (List.length_pos.mpr h)).symm⟩
  have hlast : urls.length - 1 < urls.length := by omega
  have hwalk := walkBack_buildRedirectChain urls (urls.length - 1) hlast
  have hfuel : urls.length - 1 + 1 = urls.length := by omega
  rw [hfuel] at hwalk
  refine ⟨hwalk, ?_, ?_, ?_, ?_, ?_, ?_⟩
  · rw [hwalk]; simp
  · rw [hwalk]
    exact (List.nodup_reverse).mpr (List.nodup_range urls.length)
  · rw [hwalk, List.getLast?_reverse]
    rw [hn, List.range_succ_eq_map]
    rfl
  · rw [buildRedirectChain_get urls 0 (by omega)]
    rfl
  · rw [buildRedirectChain_get urls (urls.length - 1) hlast]
    have : urls.length - 1 + 1 = urls.length := hfuel
    simp [this]
  · intro i hi
    constructor
    · rw [buildRedirectChain_get urls (i + 1) hi]
      simp
    · rw [buildRedirectChain_get urls i (by omega)]
      have : ¬(i + 1 = urls.length) := by omega
      simp [this]

/-- C4 witness: the five-request chain of
`test_page_route_should_not_work_with_redirects`: the walk from the final
request is [4, 3, 2, 1, 0] — five distinct requests ending at the original. -/
theorem redirect_chain_doubly_linked_witness :
    walkBack (buildRedirectChain redirectTestUrls) (some 4) 5 = [4, 3, 2, 1, 0]
    ∧ ((buildRedirectChain redirectTestUrls)[0]?).map
        (fun r => r.redirectedFrom) = some none
    ∧ ((buildRedirectChain redirectTestUrls)[4]?).map
        (fun r => r.redirectedTo) = some none := by
  have h := redirect_chain_doubly_linked redirectTestUrls (by decide)
  exact ⟨h.1.trans (by decide), h.2.2.2.2.1, h.2.2.2.2.2.1⟩
